import Mathlib

/-!
# Thermal conduction coefficients (`tc_kappa.c`)

A shallow embedding of `TC_kappa`, the PLUTO callback that supplies the
thermal conduction coefficients along and across magnetic field lines and the
saturation parameter `phi`.

Modelling conventions.

* The embedding is parametric in the arithmetic. `double` is a type `α` with a
  product, a quotient, a decidable test `<`, the constant `0` and decimal
  literals; no algebraic law is assumed. Read with the IEEE doubles and their
  operations the definitions are the computation of `tc_kappa.c` operation by
  operation, so a theorem proved for every arithmetic holds of the doubles,
  rounding, infinities and NaN included. Where a statement needs the laws of
  exact arithmetic it is made over an ordered field or over the reals.
* `sqrt` of `math.h` is a parameter of the embedding.
* Everything `tc_kappa.c` takes from `pluto.h` and `definitions.h` is a field
  of `Env`: the physics module, the indices `RHO`, `PRS`, `kappa` and
  `transition_temperature`, the physical and unit constants, the table
  `g_inputParam` and the function `MeanMolecularWeight`.
* The three output pointers are assumed to point to three distinct cells; the
  record `Outputs` holds the contents of those cells and every statement of the
  body is a function from `Outputs` to `Outputs`.
* `Dbl` is a small arithmetic with the special values of the doubles (both
  infinities and NaN) and exact rationals for the finite values; it serves to
  evaluate the embedding where a quotient by zero occurs.
-/

namespace ThermalWind

/-- The physics modules `PHYSICS` can be set to. -/
inductive PhysicsModule where
  | HD
  | RHD
  | MHD
  | RMHD
  deriving DecidableEq, Repr

/-- What `TC_kappa` reads from its compilation environment. -/
structure Env (α : Type) where
  /-- the value of the `PHYSICS` switch -/
  PHYSICS : PhysicsModule
  /-- index of the density in the array of primitive variables -/
  RHO : Nat
  /-- index of the pressure in the array of primitive variables -/
  PRS : Nat
  /-- index of the conduction constant in `g_inputParam` -/
  kappa : Nat
  /-- index of the transition temperature in `g_inputParam` -/
  transition_temperature : Nat
  /-- the table of user parameters -/
  g_inputParam : Nat → α
  /-- the external function giving the mean molecular weight of a state -/
  MeanMolecularWeight : (Nat → α) → α
  KELVIN : α
  CONST_mp : α
  CONST_kB : α
  UNIT_DENSITY : α
  UNIT_VELOCITY : α
  UNIT_LENGTH : α

/-- Contents of the cells behind the pointers `kpar`, `knor` and `phi`. -/
structure Outputs (α : Type) where
  kpar : α
  knor : α
  phi : α
  deriving DecidableEq, Repr

section Embedding

variable {α : Type} [Mul α] [Div α] [LT α] [DecidableRel (fun a b : α => a < b)]
  [Zero α] [OfScientific α]

/-- Line 41: `double mu = MeanMolecularWeight(v);` -/
def mu (env : Env α) (v : Nat → α) : α :=
  env.MeanMolecularWeight v

/-- Line 42: `double temperature = v[PRS]/v[RHO]*mu*KELVIN;` -/
def temperature (env : Env α) (v : Nat → α) : α :=
  v env.PRS / v env.RHO * mu env v * env.KELVIN

/-- Line 43: `double constant = g_inputParam[kappa];` -/
def constant (env : Env α) : α :=
  env.g_inputParam env.kappa

/-- Line 44: `double T_transition = g_inputParam[transition_temperature];` -/
def T_transition (env : Env α) : α :=
  env.g_inputParam env.transition_temperature

/-- Lines 48-52: the value of `T` after the `if`/`else`. -/
def T (env : Env α) (v : Nat → α) : α :=
  if temperature env v < T_transition env then T_transition env else temperature env v

/-- The right-hand side of lines 63 and 64:
`CONST_mp*mu/(UNIT_DENSITY*UNIT_VELOCITY*UNIT_LENGTH*CONST_kB)`. -/
def codeUnits (env : Env α) (v : Nat → α) : α :=
  env.CONST_mp * mu env v /
    (env.UNIT_DENSITY * env.UNIT_VELOCITY * env.UNIT_LENGTH * env.CONST_kB)

/-- Line 55: `*kpar = constant*T*T*sqrt(T);` -/
def assignKpar (env : Env α) (sqrt : α → α) (v : Nat → α) (m : Outputs α) : Outputs α :=
  { m with kpar := constant env * T env v * T env v * sqrt (T env v) }

/-- Lines 57-59: `*knor = 0.0;`, compiled only when `PHYSICS == MHD`. -/
def assignKnor (env : Env α) (m : Outputs α) : Outputs α :=
  if env.PHYSICS = PhysicsModule.MHD then { m with knor := 0 } else m

/-- Lines 63-64: both coefficients are multiplied in place by `codeUnits`. -/
def normalize (env : Env α) (v : Nat → α) (m : Outputs α) : Outputs α :=
  let m1 : Outputs α := { m with kpar := m.kpar * codeUnits env v }
  { m1 with knor := m1.knor * codeUnits env v }

/-- Line 66: `*phi = 0.3;` -/
def assignPhi (m : Outputs α) : Outputs α :=
  { m with phi := 0.3 }

/-- The cells after line 55, before the normalization to code units. -/
def TC_kappa_raw (env : Env α) (sqrt : α → α) (v : Nat → α) (m : Outputs α) : Outputs α :=
  assignKpar env sqrt v m

/-- The function `TC_kappa`: `m` holds what the three output cells contain on
entry, the result what they contain on return. The coordinates `x1`, `x2`,
`x3` are parameters as in the source. -/
def TC_kappa (env : Env α) (sqrt : α → α) (v : Nat → α) (_x1 _x2 _x3 : α)
    (m : Outputs α) : Outputs α :=
  assignPhi (normalize env v (assignKnor env (TC_kappa_raw env sqrt v m)))

end Embedding

/-! ## An arithmetic with the special values of the doubles -/

/-- The values of a double without rounding: a rational number, plus or minus
infinity, or NaN. Zero carries no sign. -/
inductive Dbl where
  | fin (q : ℚ)
  | pinf
  | ninf
  | nan
  deriving DecidableEq

/-- Product of doubles: exact on two finite values; an infinity times a
non-zero value is an infinity with the product of the signs; zero times an
infinity is NaN, and NaN propagates. -/
def Dbl.mul : Dbl → Dbl → Dbl
  | Dbl.nan, _ => Dbl.nan
  | _, Dbl.nan => Dbl.nan
  | Dbl.fin a, Dbl.fin b => Dbl.fin (a * b)
  | Dbl.fin a, Dbl.pinf => if 0 < a then Dbl.pinf else if a < 0 then Dbl.ninf else Dbl.nan
  | Dbl.fin a, Dbl.ninf => if 0 < a then Dbl.ninf else if a < 0 then Dbl.pinf else Dbl.nan
  | Dbl.pinf, Dbl.fin b => if 0 < b then Dbl.pinf else if b < 0 then Dbl.ninf else Dbl.nan
  | Dbl.ninf, Dbl.fin b => if 0 < b then Dbl.ninf else if b < 0 then Dbl.pinf else Dbl.nan
  | Dbl.pinf, Dbl.pinf => Dbl.pinf
  | Dbl.pinf, Dbl.ninf => Dbl.ninf
  | Dbl.ninf, Dbl.pinf => Dbl.ninf
  | Dbl.ninf, Dbl.ninf => Dbl.pinf

/-- Quotient of doubles: exact on finite values with a non-zero divisor; a
non-zero value over zero is an infinity with the sign of the dividend, zero
over zero is NaN; a finite value over an infinity is zero; an infinity over
an infinity is NaN, and NaN propagates. -/
def Dbl.div : Dbl → Dbl → Dbl
  | Dbl.nan, _ => Dbl.nan
  | _, Dbl.nan => Dbl.nan
  | Dbl.fin a, Dbl.fin b =>
      if b = 0 then (if 0 < a then Dbl.pinf else if a < 0 then Dbl.ninf else Dbl.nan)
      else Dbl.fin (a / b)
  | Dbl.fin _, Dbl.pinf => Dbl.fin 0
  | Dbl.fin _, Dbl.ninf => Dbl.fin 0
  | Dbl.pinf, Dbl.fin b => if b < 0 then Dbl.ninf else Dbl.pinf
  | Dbl.ninf, Dbl.fin b => if b < 0 then Dbl.pinf else Dbl.ninf
  | Dbl.pinf, Dbl.pinf => Dbl.nan
  | Dbl.pinf, Dbl.ninf => Dbl.nan
  | Dbl.ninf, Dbl.pinf => Dbl.nan
  | Dbl.ninf, Dbl.ninf => Dbl.nan

/-- The test `a < b` on doubles: false as soon as one side is NaN. -/
def Dbl.ltb : Dbl → Dbl → Bool
  | Dbl.nan, _ => false
  | _, Dbl.nan => false
  | Dbl.fin a, Dbl.fin b => decide (a < b)
  | Dbl.fin _, Dbl.pinf => true
  | Dbl.ninf, Dbl.fin _ => true
  | Dbl.ninf, Dbl.pinf => true
  | Dbl.fin _, Dbl.ninf => false
  | Dbl.pinf, _ => false
  | Dbl.ninf, Dbl.ninf => false

/-- Square root of doubles: NaN on a negative value, on minus infinity and on
NaN, plus infinity on plus infinity; on a non-negative rational `n/d` the root
rounded down to a multiple of `1/(d*2^52)`, exact when `n/d` is the square of
a rational. -/
def Dbl.sqrt : Dbl → Dbl
  | Dbl.nan => Dbl.nan
  | Dbl.ninf => Dbl.nan
  | Dbl.pinf => Dbl.pinf
  | Dbl.fin q =>
      if q < 0 then Dbl.nan
      else Dbl.fin ((Nat.sqrt (q.num.toNat * q.den * 4 ^ 52) : ℚ) / (q.den * 2 ^ 52))

instance : Mul Dbl := ⟨Dbl.mul⟩

instance : Div Dbl := ⟨Dbl.div⟩

instance : LT Dbl := ⟨fun a b => Dbl.ltb a b = true⟩

instance : DecidableRel (fun a b : Dbl => a < b) :=
  fun a b => inferInstanceAs (Decidable (Dbl.ltb a b = true))

instance : Zero Dbl := ⟨Dbl.fin 0⟩

instance : One Dbl := ⟨Dbl.fin 1⟩

instance : OfScientific Dbl := ⟨fun m s e => Dbl.fin (OfScientific.ofScientific m s e)⟩

/-! ## Sample environments and states -/

section Samples

/-- A state with pressure `p` and density `rho`, every other entry zero; the
density has index 0 and the pressure index 1 in the sample environments. -/
def sampleState {α : Type} [Zero α] (rho p : α) : Nat → α :=
  fun i => if i = 0 then rho else if i = 1 then p else 0

/-- An environment with every constant equal to one, mean molecular weight
one, conduction constant `c` (index 0 of the parameter table) and transition
temperature `tt` (index 1). -/
def sampleEnv {α : Type} [Zero α] [One α] (ph : PhysicsModule) (c tt : α) : Env α where
  PHYSICS := ph
  RHO := 0
  PRS := 1
  kappa := 0
  transition_temperature := 1
  g_inputParam := fun i => if i = 0 then c else if i = 1 then tt else 0
  MeanMolecularWeight := fun _ => 1
  KELVIN := 1
  CONST_mp := 1
  CONST_kB := 1
  UNIT_DENSITY := 1
  UNIT_VELOCITY := 1
  UNIT_LENGTH := 1

end Samples

/-! ## What the body computes -/

section OrderedLemmas

variable {α : Type} [LinearOrderedField α]

/-- The `if`/`else` of lines 48-52 is the maximum of the two temperatures. -/
theorem T_eq_max (env : Env α) (v : Nat → α) :
    T env v = max (temperature env v) (T_transition env) := by
  unfold T
  split_ifs with h
  · exact (max_eq_right h.le).symm
  · exact (max_eq_left (not_lt.mp h)).symm

end OrderedLemmas

section Lemmas

variable {α : Type} [Mul α] [Div α] [LT α] [DecidableRel (fun a b : α => a < b)]
  [Zero α] [OfScientific α]

/-- The parallel coefficient on return: the value of line 55 times the factor
of line 63. -/
theorem TC_kappa_kpar (env : Env α) (sqrt : α → α) (v : Nat → α) (x1 x2 x3 : α)
    (m : Outputs α) :
    (TC_kappa env sqrt v x1 x2 x3 m).kpar =
      constant env * T env v * T env v * sqrt (T env v) * codeUnits env v := by
  unfold TC_kappa TC_kappa_raw assignPhi normalize assignKnor assignKpar
  split_ifs <;> rfl

/-- The perpendicular coefficient on return when line 58 is compiled. -/
theorem TC_kappa_knor_of_MHD (env : Env α) (sqrt : α → α) (v : Nat → α) (x1 x2 x3 : α)
    (m : Outputs α) (h : env.PHYSICS = PhysicsModule.MHD) :
    (TC_kappa env sqrt v x1 x2 x3 m).knor = 0 * codeUnits env v := by
  unfold TC_kappa TC_kappa_raw assignPhi normalize assignKnor assignKpar
  rw [if_pos h]

/-- The perpendicular coefficient on return when line 58 is not compiled: the
entry content of the cell times the factor of line 64. -/
theorem TC_kappa_knor_of_not_MHD (env : Env α) (sqrt : α → α) (v : Nat → α)
    (x1 x2 x3 : α) (m : Outputs α) (h : env.PHYSICS ≠ PhysicsModule.MHD) :
    (TC_kappa env sqrt v x1 x2 x3 m).knor = m.knor * codeUnits env v := by
  unfold TC_kappa TC_kappa_raw assignPhi normalize assignKnor assignKpar
  rw [if_neg h]

/-- The saturation parameter on return. -/
theorem TC_kappa_phi (env : Env α) (sqrt : α → α) (v : Nat → α) (x1 x2 x3 : α)
    (m : Outputs α) :
    (TC_kappa env sqrt v x1 x2 x3 m).phi = 0.3 := by
  unfold TC_kappa assignPhi
  rfl

omit [Zero α] [OfScientific α] in
/-- The value stored by line 55. -/
theorem TC_kappa_raw_kpar (env : Env α) (sqrt : α → α) (v : Nat → α) (m : Outputs α) :
    (TC_kappa_raw env sqrt v m).kpar =
      constant env * T env v * T env v * sqrt (T env v) := rfl

/-- Over the reals `t*t*sqrt(t)` is the power `t^2.5`. For a negative `t`
both sides are zero, the value `Real.sqrt` and the real power take there. -/
theorem mul_self_mul_sqrt (t : ℝ) : t * t * Real.sqrt t = t ^ (5 / 2 : ℝ) := by
  rcases le_or_lt 0 t with h | h
  · have e : (5 / 2 : ℝ) = 2 + 1 / 2 := by norm_num
    rw [e, Real.rpow_add' h (by norm_num), Real.sqrt_eq_rpow, Real.rpow_two]
    ring
  · have c : Real.cos (5 / 2 * Real.pi) = 0 := by
      have e : (5 / 2 : ℝ) * Real.pi = Real.pi / 2 + 2 * Real.pi := by ring
      rw [e, Real.cos_add_two_pi, Real.cos_pi_div_two]
    rw [Real.sqrt_eq_zero_of_nonpos h.le, Real.rpow_def_of_neg h, c]
    simp

omit [Zero α] [OfScientific α] in
/-- Lines 48-52 when the raw temperature is below the floor or equal to it:
`T` is the floor. -/
theorem T_of_le_floor (env : Env α) (v : Nat → α)
    (h : temperature env v < T_transition env ∨ temperature env v = T_transition env) :
    T env v = T_transition env := by
  unfold T
  rcases h with h | h
  · rw [if_pos h]
  · rw [h]
    split_ifs <;> rfl

end Lemmas

section DblLemmas

theorem Dbl.zero_def : (0 : Dbl) = Dbl.fin 0 := rfl

theorem Dbl.one_def : (1 : Dbl) = Dbl.fin 1 := rfl

theorem Dbl.nan_mul (x : Dbl) : Dbl.nan * x = Dbl.nan := by
  cases x <;> rfl

theorem Dbl.mul_nan (x : Dbl) : x * Dbl.nan = Dbl.nan := by
  cases x <;> rfl

theorem Dbl.fin_div_fin (a b : ℚ) : Dbl.fin a / Dbl.fin b =
    if b = 0 then (if 0 < a then Dbl.pinf else if a < 0 then Dbl.ninf else Dbl.nan)
    else Dbl.fin (a / b) := rfl

theorem Dbl.nan_div (x : Dbl) : Dbl.nan / x = Dbl.nan := by
  cases x <;> rfl

theorem Dbl.not_nan_lt (x : Dbl) : ¬ Dbl.nan < x := by
  intro h
  have h1 : Dbl.ltb Dbl.nan x = true := h
  cases x <;> simp [Dbl.ltb] at h1

theorem Dbl.not_lt_nan (x : Dbl) : ¬ x < Dbl.nan := by
  intro h
  have h1 : Dbl.ltb x Dbl.nan = true := h
  cases x <;> simp [Dbl.ltb] at h1

theorem Dbl.fin_lt_fin (a b : ℚ) : Dbl.fin a < Dbl.fin b ↔ a < b := by
  show Dbl.ltb (Dbl.fin a) (Dbl.fin b) = true ↔ a < b
  simp [Dbl.ltb]

end DblLemmas

/-! ## The claims -/

/-- C2. Floor enforcement: whenever the raw temperature
`pressure / density * mu * KELVIN`, as the arithmetic computes it, is below the
floor or equal to it, the parallel coefficient is `normConstant * T_floor^2.5`
(computed as `T_floor*T_floor*sqrt(T_floor)`) times the unit factor; hence two
such states with the same mean molecular weight get the same parallel
coefficient, however far below the floor they are. -/
theorem C2_floor_enforcement {α : Type} [Mul α] [Div α] [LT α]
    [DecidableRel (fun a b : α => a < b)] [Zero α] [OfScientific α]
    (env : Env α) (sqrt : α → α) (v w : Nat → α) (x1 x2 x3 y1 y2 y3 : α)
    (m n : Outputs α)
    (hv : v env.PRS / v env.RHO * env.MeanMolecularWeight v * env.KELVIN <
        env.g_inputParam env.transition_temperature ∨
      v env.PRS / v env.RHO * env.MeanMolecularWeight v * env.KELVIN =
        env.g_inputParam env.transition_temperature)
    (hw : w env.PRS / w env.RHO * env.MeanMolecularWeight w * env.KELVIN <
        env.g_inputParam env.transition_temperature ∨
      w env.PRS / w env.RHO * env.MeanMolecularWeight w * env.KELVIN =
        env.g_inputParam env.transition_temperature)
    (hmu : env.MeanMolecularWeight w = env.MeanMolecularWeight v) :
    (TC_kappa env sqrt v x1 x2 x3 m).kpar =
        env.g_inputParam env.kappa * env.g_inputParam env.transition_temperature *
            env.g_inputParam env.transition_temperature *
            sqrt (env.g_inputParam env.transition_temperature) *
          (env.CONST_mp * env.MeanMolecularWeight v /
            (env.UNIT_DENSITY * env.UNIT_VELOCITY * env.UNIT_LENGTH * env.CONST_kB)) ∧
      (TC_kappa env sqrt w y1 y2 y3 n).kpar =
        (TC_kappa env sqrt v x1 x2 x3 m).kpar := by
  have hTv : T env v = T_transition env := T_of_le_floor env v hv
  have hTw : T env w = T_transition env := T_of_le_floor env w hw
  have hc : codeUnits env w = codeUnits env v := by
    unfold codeUnits mu; rw [hmu]
  refine ⟨?_, ?_⟩
  · rw [TC_kappa_kpar, hTv]; rfl
  · rw [TC_kappa_kpar, TC_kappa_kpar, hTv, hTw, hc]

/-- Witness of C2: transition temperature 10, a state of raw temperature 2 and
a state of raw temperature 10, the floor itself. -/
theorem C2_floor_enforcement_witness :
    (TC_kappa (sampleEnv PhysicsModule.MHD (1 : ℝ) 10) Real.sqrt (sampleState 1 2) 0 0 0
        ⟨0, 0, 0⟩).kpar = 1 * 10 * 10 * Real.sqrt 10 * (1 * 1 / (1 * 1 * 1 * 1)) ∧
      (TC_kappa (sampleEnv PhysicsModule.MHD (1 : ℝ) 10) Real.sqrt (sampleState 1 10) 0 0 0
        ⟨0, 0, 0⟩).kpar =
      (TC_kappa (sampleEnv PhysicsModule.MHD (1 : ℝ) 10) Real.sqrt (sampleState 1 2) 0 0 0
        ⟨0, 0, 0⟩).kpar :=
  C2_floor_enforcement (sampleEnv PhysicsModule.MHD 1 10) Real.sqrt (sampleState 1 2)
    (sampleState 1 10) 0 0 0 0 0 0 ⟨0, 0, 0⟩ ⟨0, 0, 0⟩
    (Or.inl (by norm_num [sampleEnv, sampleState]))
    (Or.inr (by norm_num [sampleEnv, sampleState])) rfl

/-- C4. For every input the saturation parameter written by `TC_kappa` is
the constant `0.3 = 3/10`, whatever the state, position, environment and
entry contents of the cells. -/
theorem C4_phi_constant {α : Type} [LinearOrderedField α] (env : Env α)
    (sqrt : α → α) (v : Nat → α) (x1 x2 x3 : α) (m : Outputs α) :
    (TC_kappa env sqrt v x1 x2 x3 m).phi = 0.3 ∧
      (TC_kappa env sqrt v x1 x2 x3 m).phi = 3 / 10 := by
  rw [TC_kappa_phi]
  exact ⟨rfl, by norm_num⟩

/-- C6 as stated fails: with proton mass 2 and every other constant one, a
state of temperature 1 has raw coefficient 1 and final coefficient 2, so the
ratio of raw to final is 1/2 while the unit factor is 2. -/
theorem C6_as_stated_fails :
    (TC_kappa_raw { sampleEnv PhysicsModule.MHD (1 : ℝ) 0 with CONST_mp := 2 } Real.sqrt
          (sampleState 1 1) ⟨0, 0, 0⟩).kpar /
        (TC_kappa { sampleEnv PhysicsModule.MHD (1 : ℝ) 0 with CONST_mp := 2 } Real.sqrt
          (sampleState 1 1) 0 0 0 ⟨0, 0, 0⟩).kpar = 1 / 2 ∧
      (2 : ℝ) * 1 / (1 * 1 * 1 * 1) = 2 ∧
      (TC_kappa_raw { sampleEnv PhysicsModule.MHD (1 : ℝ) 0 with CONST_mp := 2 } Real.sqrt
          (sampleState 1 1) ⟨0, 0, 0⟩).kpar /
        (TC_kappa { sampleEnv PhysicsModule.MHD (1 : ℝ) 0 with CONST_mp := 2 } Real.sqrt
          (sampleState 1 1) 0 0 0 ⟨0, 0, 0⟩).kpar ≠
        (2 : ℝ) * 1 / (1 * 1 * 1 * 1) := by
  have hT : T { sampleEnv PhysicsModule.MHD (1 : ℝ) 0 with CONST_mp := 2 }
      (sampleState 1 1) = 1 := by
    norm_num [T, temperature, T_transition, mu, sampleEnv, sampleState]
  rw [TC_kappa_kpar, TC_kappa_raw_kpar, hT]
  norm_num [constant, codeUnits, mu, sampleEnv]

/-- C6, amended. For every arithmetic and every input the final parallel
coefficient is the raw coefficient `normConstant*T*T*sqrt(T)` stored by line 55
multiplied, in one product, by
`protonMass * mu / (unitDensity * unitVelocity * unitLength * boltzmannConstant)`:
the factor takes the raw coefficient to the final one, not the final to the
raw. -/
theorem C6_unit_scaling {α : Type} [Mul α] [Div α] [LT α]
    [DecidableRel (fun a b : α => a < b)] [Zero α] [OfScientific α]
    (env : Env α) (sqrt : α → α) (v : Nat → α) (x1 x2 x3 : α) (m : Outputs α) :
    (TC_kappa_raw env sqrt v m).kpar =
        env.g_inputParam env.kappa * T env v * T env v * sqrt (T env v) ∧
      (TC_kappa env sqrt v x1 x2 x3 m).kpar =
        (TC_kappa_raw env sqrt v m).kpar *
          (env.CONST_mp * env.MeanMolecularWeight v /
            (env.UNIT_DENSITY * env.UNIT_VELOCITY * env.UNIT_LENGTH * env.CONST_kB)) := by
  refine ⟨rfl, ?_⟩
  rw [TC_kappa_kpar, TC_kappa_raw_kpar]
  rfl

/-- C7 as stated fails: in the unit scenario compiled for the HD module line 58
is absent, and a perpendicular cell holding 5 on entry holds 5 on return. -/
theorem C7_as_stated_fails :
    sampleState (1 : ℝ) 1 (sampleEnv PhysicsModule.HD (1 : ℝ) 0).RHO = 1 ∧
      sampleState (1 : ℝ) 1 (sampleEnv PhysicsModule.HD (1 : ℝ) 0).PRS = 1 ∧
      mu (sampleEnv PhysicsModule.HD (1 : ℝ) 0) (sampleState 1 1) = 1 ∧
      constant (sampleEnv PhysicsModule.HD (1 : ℝ) 0) = 1 ∧
      T_transition (sampleEnv PhysicsModule.HD (1 : ℝ) 0) = 0 ∧
      (sampleEnv PhysicsModule.HD (1 : ℝ) 0).KELVIN = 1 ∧
      codeUnits (sampleEnv PhysicsModule.HD (1 : ℝ) 0) (sampleState 1 1) = 1 ∧
      (TC_kappa (sampleEnv PhysicsModule.HD (1 : ℝ) 0) Real.sqrt (sampleState 1 1) 0 0 0
        ⟨0, 5, 0⟩).knor = 5 ∧
      (TC_kappa (sampleEnv PhysicsModule.HD (1 : ℝ) 0) Real.sqrt (sampleState 1 1) 0 0 0
        ⟨0, 5, 0⟩).knor ≠ 0 := by
  have hk : (TC_kappa (sampleEnv PhysicsModule.HD (1 : ℝ) 0) Real.sqrt (sampleState 1 1)
      0 0 0 ⟨0, 5, 0⟩).knor = 5 := by
    rw [TC_kappa_knor_of_not_MHD _ _ _ _ _ _ _ (by simp [sampleEnv])]
    norm_num [codeUnits, mu, sampleEnv]
  refine ⟨rfl, rfl, rfl, rfl, rfl, rfl, ?_, hk, ?_⟩
  · norm_num [codeUnits, mu, sampleEnv]
  · rw [hk]; norm_num

/-- C7, amended. Unit scenario under the MHD physics configuration: with
density, pressure, mean molecular weight, conduction constant, `KELVIN`,
proton mass, Boltzmann constant and the three units equal to 1 and floor 0,
`TC_kappa` returns parallel coefficient 1, perpendicular coefficient 0 and
`phi = 0.3`. -/
theorem C7_unit_scenario (env : Env ℝ) (v : Nat → ℝ) (x1 x2 x3 : ℝ) (m : Outputs ℝ)
    (hphys : env.PHYSICS = PhysicsModule.MHD)
    (hrho : v env.RHO = 1) (hprs : v env.PRS = 1)
    (hmu : env.MeanMolecularWeight v = 1)
    (hc : env.g_inputParam env.kappa = 1)
    (hfloor : env.g_inputParam env.transition_temperature = 0)
    (hK : env.KELVIN = 1) (hmp : env.CONST_mp = 1) (hkB : env.CONST_kB = 1)
    (hUD : env.UNIT_DENSITY = 1) (hUV : env.UNIT_VELOCITY = 1)
    (hUL : env.UNIT_LENGTH = 1) :
    (TC_kappa env Real.sqrt v x1 x2 x3 m).kpar = 1 ∧
      (TC_kappa env Real.sqrt v x1 x2 x3 m).knor = 0 ∧
      (TC_kappa env Real.sqrt v x1 x2 x3 m).phi = 0.3 := by
  have hT : T env v = 1 := by
    unfold T temperature T_transition mu
    rw [hrho, hprs, hmu, hfloor, hK]
    norm_num
  refine ⟨?_, ?_, TC_kappa_phi env Real.sqrt v x1 x2 x3 m⟩
  · rw [TC_kappa_kpar, hT]
    unfold constant codeUnits mu
    rw [hc, hmu, hmp, hkB, hUD, hUV, hUL]
    norm_num
  · rw [TC_kappa_knor_of_MHD env Real.sqrt v x1 x2 x3 m hphys, zero_mul]

/-- Witness of C7 (amended): the unit environment compiled for MHD, with the
output cells holding 8, 5 and 2 on entry. -/
theorem C7_unit_scenario_witness :
    (TC_kappa (sampleEnv PhysicsModule.MHD (1 : ℝ) 0) Real.sqrt (sampleState 1 1) 0 0 0
        ⟨8, 5, 2⟩).kpar = 1 ∧
      (TC_kappa (sampleEnv PhysicsModule.MHD (1 : ℝ) 0) Real.sqrt (sampleState 1 1) 0 0 0
        ⟨8, 5, 2⟩).knor = 0 ∧
      (TC_kappa (sampleEnv PhysicsModule.MHD (1 : ℝ) 0) Real.sqrt (sampleState 1 1) 0 0 0
        ⟨8, 5, 2⟩).phi = 0.3 :=
  C7_unit_scenario (sampleEnv PhysicsModule.MHD 1 0) (sampleState 1 1) 0 0 0 ⟨8, 5, 2⟩
    rfl rfl rfl rfl rfl rfl rfl rfl rfl rfl rfl rfl

/-- C8. Below-floor scenario: with mean molecular weight, conduction constant
and `KELVIN` equal to 1, floor 10 and pressure over density equal to 2 (raw
temperature 2), the coefficient stored by line 55 is `10^2.5 = 100*sqrt(10)`, which lies between 316.2277 and
316.2278; when proton mass, Boltzmann constant and the three units are 1 the
coefficient on return is that same value. -/
theorem C8_below_floor_scenario (env : Env ℝ) (v : Nat → ℝ) (x1 x2 x3 : ℝ)
    (m : Outputs ℝ)
    (hmu : env.MeanMolecularWeight v = 1)
    (hc : env.g_inputParam env.kappa = 1)
    (hK : env.KELVIN = 1)
    (hfloor : env.g_inputParam env.transition_temperature = 10)
    (hratio : v env.PRS / v env.RHO = 2) :
    (TC_kappa_raw env Real.sqrt v m).kpar = (10 : ℝ) ^ (5 / 2 : ℝ) ∧
      (TC_kappa_raw env Real.sqrt v m).kpar = 100 * Real.sqrt 10 ∧
      316.2277 < (TC_kappa_raw env Real.sqrt v m).kpar ∧
      (TC_kappa_raw env Real.sqrt v m).kpar < 316.2278 ∧
      (env.CONST_mp = 1 → env.CONST_kB = 1 → env.UNIT_DENSITY = 1 →
        env.UNIT_VELOCITY = 1 → env.UNIT_LENGTH = 1 →
        (TC_kappa env Real.sqrt v x1 x2 x3 m).kpar =
          (TC_kappa_raw env Real.sqrt v m).kpar) := by
  have hT : T env v = 10 := by
    have ht : temperature env v = 2 := by
      unfold temperature mu
      rw [hratio, hmu, hK]
      norm_num
    unfold T T_transition
    rw [ht, hfloor]
    norm_num
  have hval : (TC_kappa_raw env Real.sqrt v m).kpar = 100 * Real.sqrt 10 := by
    rw [TC_kappa_raw_kpar, hT]
    unfold constant
    rw [hc]
    norm_num
  have hlo : (3.162277 : ℝ) < Real.sqrt 10 := by
    rw [Real.lt_sqrt (by norm_num)]
    norm_num
  have hhi : Real.sqrt 10 < (3.162278 : ℝ) := by
    rw [Real.sqrt_lt' (by norm_num)]
    norm_num
  refine ⟨?_, hval, ?_, ?_, ?_⟩
  · rw [hval, ← mul_self_mul_sqrt]
    norm_num
  · rw [hval]
    linarith
  · rw [hval]
    linarith
  · intro hmp hkB hUD hUV hUL
    rw [TC_kappa_kpar, TC_kappa_raw_kpar]
    unfold codeUnits mu
    rw [hmu, hmp, hkB, hUD, hUV, hUL]
    norm_num

/-- Witness of C8: the unit environment with floor 10 and the state of
density 1 and pressure 2. -/
theorem C8_below_floor_scenario_witness :
    (TC_kappa_raw (sampleEnv PhysicsModule.MHD (1 : ℝ) 10) Real.sqrt (sampleState 1 2)
        ⟨0, 0, 0⟩).kpar = (10 : ℝ) ^ (5 / 2 : ℝ) ∧
      (TC_kappa_raw (sampleEnv PhysicsModule.MHD (1 : ℝ) 10) Real.sqrt (sampleState 1 2)
        ⟨0, 0, 0⟩).kpar = 100 * Real.sqrt 10 ∧
      316.2277 < (TC_kappa_raw (sampleEnv PhysicsModule.MHD (1 : ℝ) 10) Real.sqrt
        (sampleState 1 2) ⟨0, 0, 0⟩).kpar ∧
      (TC_kappa_raw (sampleEnv PhysicsModule.MHD (1 : ℝ) 10) Real.sqrt (sampleState 1 2)
        ⟨0, 0, 0⟩).kpar < 316.2278 ∧
      (TC_kappa (sampleEnv PhysicsModule.MHD (1 : ℝ) 10) Real.sqrt (sampleState 1 2) 0 0 0
        ⟨0, 0, 0⟩).kpar =
      (TC_kappa_raw (sampleEnv PhysicsModule.MHD (1 : ℝ) 10) Real.sqrt (sampleState 1 2)
        ⟨0, 0, 0⟩).kpar := by
  have h := C8_below_floor_scenario (sampleEnv PhysicsModule.MHD (1 : ℝ) 10)
    (sampleState 1 2) 0 0 0 ⟨0, 0, 0⟩ rfl rfl rfl rfl
    (by norm_num [sampleEnv, sampleState])
  exact ⟨h.1, h.2.1, h.2.2.1, h.2.2.2.1, h.2.2.2.2 rfl rfl rfl rfl rfl⟩

/-- C9 as stated fails: compiled for the HD module, line 58 is absent and line
64 multiplies the entry content of the perpendicular cell; entry contents 1
and 2 give the results 1 and 2. -/
theorem C9_as_stated_fails :
    (TC_kappa (sampleEnv PhysicsModule.HD (1 : ℝ) 0) Real.sqrt (sampleState 1 1) 0 0 0
        ⟨0, 1, 0⟩).knor = 1 ∧
      (TC_kappa (sampleEnv PhysicsModule.HD (1 : ℝ) 0) Real.sqrt (sampleState 1 1) 0 0 0
        ⟨0, 2, 0⟩).knor = 2 ∧
      TC_kappa (sampleEnv PhysicsModule.HD (1 : ℝ) 0) Real.sqrt (sampleState 1 1) 0 0 0
        ⟨0, 1, 0⟩ ≠
      TC_kappa (sampleEnv PhysicsModule.HD (1 : ℝ) 0) Real.sqrt (sampleState 1 1) 0 0 0
        ⟨0, 2, 0⟩ := by
  have h1 : (TC_kappa (sampleEnv PhysicsModule.HD (1 : ℝ) 0) Real.sqrt (sampleState 1 1)
      0 0 0 ⟨0, 1, 0⟩).knor = 1 := by
    rw [TC_kappa_knor_of_not_MHD _ _ _ _ _ _ _ (by simp [sampleEnv])]
    norm_num [codeUnits, mu, sampleEnv]
  have h2 : (TC_kappa (sampleEnv PhysicsModule.HD (1 : ℝ) 0) Real.sqrt (sampleState 1 1)
      0 0 0 ⟨0, 2, 0⟩).knor = 2 := by
    rw [TC_kappa_knor_of_not_MHD _ _ _ _ _ _ _ (by simp [sampleEnv])]
    norm_num [codeUnits, mu, sampleEnv]
  refine ⟨h1, h2, fun h => ?_⟩
  have hk := congrArg Outputs.knor h
  rw [h1, h2] at hk
  norm_num at hk

/-- C9, amended. Under the MHD physics configuration the three outputs are
overwritten without their entry contents reaching the result: for every input
and every two choices of the entry contents of the three cells, `TC_kappa`
leaves the same three values. -/
theorem C9_outputs_overwritten {α : Type} [LinearOrderedField α] (env : Env α)
    (sqrt : α → α) (v : Nat → α) (x1 x2 x3 : α) (m n : Outputs α)
    (h : env.PHYSICS = PhysicsModule.MHD) :
    TC_kappa env sqrt v x1 x2 x3 m = TC_kappa env sqrt v x1 x2 x3 n := by
  unfold TC_kappa TC_kappa_raw assignPhi normalize assignKnor assignKpar
  rw [if_pos h, if_pos h]

/-- Witness of C9 (amended): the unit environment compiled for MHD, entry
contents `(1, 2, 3)` and `(4, 5, 6)`. -/
theorem C9_outputs_overwritten_witness :
    TC_kappa (sampleEnv PhysicsModule.MHD (1 : ℝ) 0) Real.sqrt (sampleState 1 1) 0 0 0
        ⟨1, 2, 3⟩ =
      TC_kappa (sampleEnv PhysicsModule.MHD (1 : ℝ) 0) Real.sqrt (sampleState 1 1) 0 0 0
        ⟨4, 5, 6⟩ :=
  C9_outputs_overwritten (sampleEnv PhysicsModule.MHD 1 0) Real.sqrt (sampleState 1 1)
    0 0 0 ⟨1, 2, 3⟩ ⟨4, 5, 6⟩ rfl

/-- C10. Position independence: for every environment, state and entry
contents and every two positions `(x1, x2, x3)` and `(y1, y2, y3)`, `TC_kappa`
returns the same parallel coefficient, perpendicular coefficient and `phi`. -/
theorem C10_position_independent {α : Type} [LinearOrderedField α] (env : Env α)
    (sqrt : α → α) (v : Nat → α) (x1 x2 x3 y1 y2 y3 : α) (m : Outputs α) :
    (TC_kappa env sqrt v x1 x2 x3 m).kpar = (TC_kappa env sqrt v y1 y2 y3 m).kpar ∧
      (TC_kappa env sqrt v x1 x2 x3 m).knor = (TC_kappa env sqrt v y1 y2 y3 m).knor ∧
      (TC_kappa env sqrt v x1 x2 x3 m).phi = (TC_kappa env sqrt v y1 y2 y3 m).phi := by
  refine ⟨?_, ?_, ?_⟩
  · rw [TC_kappa_kpar, TC_kappa_kpar]
  · unfold TC_kappa
    rfl
  · rw [TC_kappa_phi, TC_kappa_phi]

/-- C11 as stated fails: with pressure 0 and density 0 the raw temperature is
`0/0`, NaN; the test `NaN < T_floor` is false, so `T` is NaN, neither above the
floor 4 nor equal to it, and the parallel coefficient is NaN, not positive. -/
theorem C11_as_stated_fails :
    T (sampleEnv PhysicsModule.MHD (1 : Dbl) (Dbl.fin 4)) (sampleState 0 0) = Dbl.nan ∧
      ¬ (T_transition (sampleEnv PhysicsModule.MHD (1 : Dbl) (Dbl.fin 4)) <
          T (sampleEnv PhysicsModule.MHD (1 : Dbl) (Dbl.fin 4)) (sampleState 0 0) ∨
        T_transition (sampleEnv PhysicsModule.MHD (1 : Dbl) (Dbl.fin 4)) =
          T (sampleEnv PhysicsModule.MHD (1 : Dbl) (Dbl.fin 4)) (sampleState 0 0)) ∧
      (0 : Dbl) < T_transition (sampleEnv PhysicsModule.MHD (1 : Dbl) (Dbl.fin 4)) ∧
      (TC_kappa (sampleEnv PhysicsModule.MHD (1 : Dbl) (Dbl.fin 4)) Dbl.sqrt
        (sampleState 0 0) 0 0 0 ⟨0, 0, 0⟩).kpar = Dbl.nan ∧
      ¬ (0 : Dbl) < (TC_kappa (sampleEnv PhysicsModule.MHD (1 : Dbl) (Dbl.fin 4)) Dbl.sqrt
        (sampleState 0 0) 0 0 0 ⟨0, 0, 0⟩).kpar := by
  have ht : temperature (sampleEnv PhysicsModule.MHD (1 : Dbl) (Dbl.fin 4))
      (sampleState 0 0) = Dbl.nan := by
    simp [temperature, mu, sampleEnv, sampleState, Dbl.zero_def, Dbl.one_def,
      Dbl.fin_div_fin, Dbl.nan_mul]
  have hT : T (sampleEnv PhysicsModule.MHD (1 : Dbl) (Dbl.fin 4)) (sampleState 0 0) =
      Dbl.nan := by
    unfold T
    rw [ht, if_neg (Dbl.not_nan_lt _)]
  have hfl : T_transition (sampleEnv PhysicsModule.MHD (1 : Dbl) (Dbl.fin 4)) = Dbl.fin 4 :=
    rfl
  have hk : (TC_kappa (sampleEnv PhysicsModule.MHD (1 : Dbl) (Dbl.fin 4)) Dbl.sqrt
      (sampleState 0 0) 0 0 0 ⟨0, 0, 0⟩).kpar = Dbl.nan := by
    rw [TC_kappa_kpar, hT]
    simp [Dbl.mul_nan, Dbl.nan_mul]
  refine ⟨hT, ?_, ?_, hk, ?_⟩
  · rw [hT, hfl]
    rintro (h | h)
    · exact Dbl.not_lt_nan _ h
    · exact Dbl.noConfusion h
  · rw [hfl, Dbl.zero_def, Dbl.fin_lt_fin]
    norm_num
  · rw [hk]
    exact Dbl.not_lt_nan _

/-- C11, amended. The clamp keeps the temperature at or above the floor
whenever the raw temperature is a number: for every arithmetic and every input
whose raw temperature `pressure / density * mu * KELVIN` is below the floor,
above it or equal to it (which a NaN is not), the temperature `T` chosen by
lines 48-52 is above the floor or equal to it; so, the test `<` being
transitive, with `T_floor > 0` the temperature fed to `T*T*sqrt(T)` is
positive. -/
theorem C11_clamp_invariant {α : Type} [Mul α] [Div α] [LT α]
    [DecidableRel (fun a b : α => a < b)] [Zero α]
    (env : Env α) (v : Nat → α)
    (hcmp : v env.PRS / v env.RHO * env.MeanMolecularWeight v * env.KELVIN <
        env.g_inputParam env.transition_temperature ∨
      env.g_inputParam env.transition_temperature <
        v env.PRS / v env.RHO * env.MeanMolecularWeight v * env.KELVIN ∨
      env.g_inputParam env.transition_temperature =
        v env.PRS / v env.RHO * env.MeanMolecularWeight v * env.KELVIN) :
    (env.g_inputParam env.transition_temperature < T env v ∨
        env.g_inputParam env.transition_temperature = T env v) ∧
      ((∀ a b c : α, a < b → b < c → a < c) →
        0 < env.g_inputParam env.transition_temperature → 0 < T env v) := by
  have hge : env.g_inputParam env.transition_temperature < T env v ∨
      env.g_inputParam env.transition_temperature = T env v := by
    by_cases hlt : temperature env v < T_transition env
    · right
      exact (T_of_le_floor env v (Or.inl hlt)).symm
    · have hT : T env v = temperature env v := if_neg hlt
      rw [hT]
      rcases hcmp with h | h | h
      · exact absurd h hlt
      · exact Or.inl h
      · exact Or.inr h
  refine ⟨hge, fun htrans hpos => ?_⟩
  rcases hge with h | h
  · exact htrans _ _ _ hpos h
  · rw [← h]
    exact hpos

/-- Witness of C11 (amended): unit environment with floor 10, density 1 and the
negative pressure -3. -/
theorem C11_clamp_invariant_witness :
    ((10 : ℝ) < T (sampleEnv PhysicsModule.MHD (1 : ℝ) 10) (sampleState 1 (-3)) ∨
        (10 : ℝ) = T (sampleEnv PhysicsModule.MHD (1 : ℝ) 10) (sampleState 1 (-3))) ∧
      0 < T (sampleEnv PhysicsModule.MHD (1 : ℝ) 10) (sampleState 1 (-3)) := by
  have h := C11_clamp_invariant (sampleEnv PhysicsModule.MHD (1 : ℝ) 10)
    (sampleState 1 (-3)) (Or.inl (by norm_num [sampleEnv, sampleState]))
  have hpos : (0 : ℝ) < (sampleEnv PhysicsModule.MHD (1 : ℝ) 10).g_inputParam
      (sampleEnv PhysicsModule.MHD (1 : ℝ) 10).transition_temperature := by
    norm_num [sampleEnv]
  exact ⟨h.1, h.2 (fun _ _ _ hab hbc => lt_trans hab hbc) hpos⟩

/-- C13. The outputs depend on pressure and density only through their
quotient: for every non-zero scalar `c`, if a state `w` has pressure `c*p` and
density `c*rho` where `v` has pressure `p` and non-zero density `rho`, and the
two have the same mean molecular weight, then `TC_kappa` returns the same
parallel coefficient, perpendicular coefficient and `phi` for both. -/
theorem C13_ratio_only {α : Type} [LinearOrderedField α] (env : Env α)
    (sqrt : α → α) (v w : Nat → α) (c : α) (x1 x2 x3 y1 y2 y3 : α) (m : Outputs α)
    (hc : c ≠ 0) (hrho : v env.RHO ≠ 0)
    (hp : w env.PRS = c * v env.PRS) (hd : w env.RHO = c * v env.RHO)
    (hmu : env.MeanMolecularWeight w = env.MeanMolecularWeight v) :
    (TC_kappa env sqrt w y1 y2 y3 m).kpar = (TC_kappa env sqrt v x1 x2 x3 m).kpar ∧
      (TC_kappa env sqrt w y1 y2 y3 m).knor = (TC_kappa env sqrt v x1 x2 x3 m).knor ∧
      (TC_kappa env sqrt w y1 y2 y3 m).phi = (TC_kappa env sqrt v x1 x2 x3 m).phi := by
  have hq : w env.PRS / w env.RHO = v env.PRS / v env.RHO := by
    rw [hp, hd]
    field_simp
    ring
  have ht : temperature env w = temperature env v := by
    unfold temperature mu
    rw [hq, hmu]
  have hT : T env w = T env v := by
    unfold T
    rw [ht]
  have hcu : codeUnits env w = codeUnits env v := by
    unfold codeUnits mu; rw [hmu]
  refine ⟨?_, ?_, ?_⟩
  · rw [TC_kappa_kpar, TC_kappa_kpar, hT, hcu]
  · by_cases h : env.PHYSICS = PhysicsModule.MHD
    · rw [TC_kappa_knor_of_MHD _ _ _ _ _ _ _ h, TC_kappa_knor_of_MHD _ _ _ _ _ _ _ h, hcu]
    · rw [TC_kappa_knor_of_not_MHD _ _ _ _ _ _ _ h,
        TC_kappa_knor_of_not_MHD _ _ _ _ _ _ _ h, hcu]
  · rw [TC_kappa_phi, TC_kappa_phi]

/-- Witness of C13: density 2 and pressure 6 against the same state scaled by
`c = 5`, in an HD environment with perpendicular cell holding 7 on entry. -/
theorem C13_ratio_only_witness :
    (TC_kappa (sampleEnv PhysicsModule.HD (1 : ℝ) 0) Real.sqrt (sampleState 10 30) 0 0 0
        ⟨0, 7, 0⟩).kpar =
      (TC_kappa (sampleEnv PhysicsModule.HD (1 : ℝ) 0) Real.sqrt (sampleState 2 6) 0 0 0
        ⟨0, 7, 0⟩).kpar ∧
      (TC_kappa (sampleEnv PhysicsModule.HD (1 : ℝ) 0) Real.sqrt (sampleState 10 30) 0 0 0
        ⟨0, 7, 0⟩).knor =
      (TC_kappa (sampleEnv PhysicsModule.HD (1 : ℝ) 0) Real.sqrt (sampleState 2 6) 0 0 0
        ⟨0, 7, 0⟩).knor ∧
      (TC_kappa (sampleEnv PhysicsModule.HD (1 : ℝ) 0) Real.sqrt (sampleState 10 30) 0 0 0
        ⟨0, 7, 0⟩).phi =
      (TC_kappa (sampleEnv PhysicsModule.HD (1 : ℝ) 0) Real.sqrt (sampleState 2 6) 0 0 0
        ⟨0, 7, 0⟩).phi :=
  C13_ratio_only (sampleEnv PhysicsModule.HD 1 0) Real.sqrt (sampleState 2 6)
    (sampleState 10 30) 5 0 0 0 0 0 0 ⟨0, 7, 0⟩ (by norm_num)
    (by norm_num [sampleEnv, sampleState]) (by norm_num [sampleEnv, sampleState])
    (by norm_num [sampleEnv, sampleState]) rfl

end ThermalWind
